import Mathlib

/-!
# Verification of the design-pattern snippets

Shallow embedding of the toy code snippets of the `designPattern` repository
(flyweight factory, state-pattern media player, playlist iterator, singleton
logger, prototype shapes, house builder, stock-market observer, support chain
of responsibility, window decorator), together with theorems settling the
spec's claims about them.

Java/TypeScript object references are modelled as allocation ids (`Nat`);
a heap is a list indexed by those ids, and `new` appends.  `System.out.println`
output is modelled as the list of printed lines.  `double` prices carry no
arithmetic in the snippets, so they are embedded as `Rat`.
-/

set_option autoImplicit false

namespace DesignPattern

/-! ## Flyweight (`src/unnamed/part_006`)

`Character` holds `value : char`, `size : int`, `font : String` and does not
override `equals`/`hashCode`, so the `HashMap<Character, Character>` inside
`FlyweightFactory` compares keys by reference identity. -/

/-- The fields of a `Character` flyweight object. -/
structure CharacterObj where
  value : Char
  size : Int
  font : String

/-- The `FlyweightFactory` state.  `heap` records every allocated `Character`
(references are allocation ids, fresh ids are `nextRef`); `flyweights` is the
`HashMap<Character, Character>`, whose keys compare by reference identity
because `Character` inherits `Object.equals`/`hashCode`. -/
structure FlyweightFactory where
  nextRef : Nat
  flyweights : List (Nat × Nat)
  heap : List (Nat × CharacterObj)

/-- A client-side fresh factory: `new FlyweightFactory()`. -/
def FlyweightFactory.empty : FlyweightFactory := ⟨0, [], []⟩

/-- `FlyweightFactory.getCharacter(value, size, font)`:
`Character character = new Character(value, size, font);`
`if (!flyweights.containsKey(character)) flyweights.put(character, character);`
`return flyweights.get(character);` — with `containsKey`/`get` comparing keys
by reference identity.  Returns the updated factory and the reference handed
back to the caller. -/
def FlyweightFactory.getCharacter (f : FlyweightFactory) (value : Char) (size : Int)
    (font : String) : FlyweightFactory × Nat :=
  let ref := f.nextRef
  let heap := f.heap ++ [(ref, ⟨value, size, font⟩)]
  let contains := f.flyweights.any (fun p => p.1 == ref)
  let flyweights := if contains then f.flyweights else f.flyweights ++ [(ref, ref)]
  let result := ((flyweights.find? (fun p => p.1 == ref)).map Prod.snd).getD ref
  (⟨ref + 1, flyweights, heap⟩, result)

/-- Two `getCharacter('a', 12, "Arial")` calls on a fresh factory: the final
factory state and the two references returned. -/
def flyweightTwice : FlyweightFactory × Nat × Nat :=
  let r1 := FlyweightFactory.empty.getCharacter 'a' 12 "Arial"
  let r2 := r1.1.getCharacter 'a' 12 "Arial"
  (r2.1, r1.2, r2.2)

/-! ## State pattern (`src/unnamed/part_002`)

`MediaPlayer` delegates `play`/`pause`/`stop` to its current `State` object;
the concrete states print a line and possibly call `player.setState(...)`. -/

/-- The three concrete `State` classes of the media player. -/
inductive PlayerState
  | playing
  | paused
  | stopped
deriving DecidableEq

/-- The `MediaPlayer` context: holds the current state. -/
structure MediaPlayer where
  currentState : PlayerState
deriving DecidableEq

/-- `new MediaPlayer()`: `currentState = new StoppedState()`. -/
def MediaPlayer.init : MediaPlayer := ⟨.stopped⟩

/-- `MediaPlayer.setState(state)`. -/
def MediaPlayer.setState (_p : MediaPlayer) (s : PlayerState) : MediaPlayer := ⟨s⟩

/-- `State.play(player)` as implemented by each concrete state class: the
printed line and the resulting player. -/
def PlayerState.play : PlayerState → MediaPlayer → String × MediaPlayer
  | .playing, p => ("Already playing!", p)
  | .paused, p => ("Resuming playback...", p.setState .playing)
  | .stopped, p => ("Starting playback...", p.setState .playing)

/-- `State.pause(player)` as implemented by each concrete state class. -/
def PlayerState.pause : PlayerState → MediaPlayer → String × MediaPlayer
  | .playing, p => ("Pausing playback...", p.setState .paused)
  | .paused, p => ("Already paused!", p)
  | .stopped, p => ("Cannot pause. The media player is stopped.", p)

/-- `State.stop(player)` as implemented by each concrete state class. -/
def PlayerState.stopOp : PlayerState → MediaPlayer → String × MediaPlayer
  | .playing, p => ("Stopping playback...", p.setState .stopped)
  | .paused, p => ("Stopping playback...", p.setState .stopped)
  | .stopped, p => ("Already stopped!", p)

/-- `MediaPlayer.play()`: `currentState.play(this)`. -/
def MediaPlayer.play (p : MediaPlayer) : String × MediaPlayer :=
  p.currentState.play p

/-- `MediaPlayer.pause()`: `currentState.pause(this)`. -/
def MediaPlayer.pause (p : MediaPlayer) : String × MediaPlayer :=
  p.currentState.pause p

/-- `MediaPlayer.stop()`: `currentState.stop(this)`. -/
def MediaPlayer.stop (p : MediaPlayer) : String × MediaPlayer :=
  p.currentState.stopOp p

/-! ## Iterator (`src/docs/behavioralPattern/templateMethod/TemplateMethod.mdx`,
Iterator-pattern section)

`PlaylistIterator` holds a `final String[] songs` and an `int position`;
`next()` throws `IllegalStateException` when exhausted.  A thrown exception is
embedded as `Except.error` carrying the exception message. -/

/-- The `PlaylistIterator` state: the song array and the cursor. -/
structure PlaylistIterator where
  songs : List String
  position : Nat
deriving DecidableEq

/-- `PlaylistIterator.hasNext()`: `position < songs.length`. -/
def PlaylistIterator.hasNext (it : PlaylistIterator) : Bool :=
  it.position < it.songs.length

/-- `PlaylistIterator.next()`:
`if (!hasNext()) throw new IllegalStateException("No more songs in the playlist.");`
`return songs[position++];` — returning the song and the advanced iterator. -/
def PlaylistIterator.next (it : PlaylistIterator) : Except String (String × PlaylistIterator) :=
  if h : it.hasNext then
    .ok (it.songs.get ⟨it.position, by simpa [PlaylistIterator.hasNext] using h⟩,
      ⟨it.songs, it.position + 1⟩)
  else
    .error "No more songs in the playlist."

/-- The `Playlist` aggregate. -/
structure Playlist where
  songs : List String

/-- `Playlist.createIterator()`: `new PlaylistIterator(songs)`, starting at
position `0`.  Total: no error path. -/
def Playlist.createIterator (p : Playlist) : PlaylistIterator :=
  ⟨p.songs, 0⟩

/-! ## Singleton (`src/docs/creationalPattern/singleton/Singleton.mdx`)

`Logger` holds a `private static Logger instance`; `getInstance()` allocates on
first use (the double-checked lock collapses to a single null check in the
single-threaded model the snippets assume).  Logger objects are modelled by
allocation ids. -/

/-- The static state of the `Logger` class: the `instance` field (a reference,
or null) and the allocation counter. -/
structure LoggerState where
  inst : Option Nat
  nextRef : Nat
deriving DecidableEq

/-- The class-load state: `instance == null`, nothing allocated. -/
def LoggerState.uninitialized : LoggerState := ⟨none, 0⟩

/-- `Logger.getInstance()`: `if (instance == null) { instance = new Logger(); }`
`return instance;` — returning the new static state and the reference handed
to the caller. -/
def Logger.getInstance : LoggerState → LoggerState × Nat
  | ⟨none, n⟩ => (⟨some n, n + 1⟩, n)
  | ⟨some i, n⟩ => (⟨some i, n⟩, i)

/-! ## Prototype (`src/docs/creationalPattern/prototype/Prototype.mdx`)

`Circle` and `Rectangle` implement `clone()` by `new`-ing a copy with the same
field values.  For reference (non-)identity, shapes live on a heap (a list
indexed by references) and `new` appends. -/

/-- The `Circle` prototype's fields. -/
structure Circle where
  radius : Int
  color : String
deriving DecidableEq

instance : Inhabited Circle := ⟨⟨0, ""⟩⟩

/-- `Circle.setRadius(radius)`. -/
def Circle.setRadius (c : Circle) (radius : Int) : Circle := { c with radius }

/-- `Circle.setColor(color)`. -/
def Circle.setColor (c : Circle) (color : String) : Circle := { c with color }

/-- `Circle.clone()`: `new Circle(this.radius, this.color)` (field copy). -/
def Circle.clone (c : Circle) : Circle := ⟨c.radius, c.color⟩

/-- The `Rectangle` prototype's fields. -/
structure Rectangle where
  width : Int
  height : Int
  color : String
deriving DecidableEq

instance : Inhabited Rectangle := ⟨⟨0, 0, ""⟩⟩

/-- `Rectangle.setWidth(width)`. -/
def Rectangle.setWidth (r : Rectangle) (width : Int) : Rectangle := { r with width }

/-- `Rectangle.setHeight(height)`. -/
def Rectangle.setHeight (r : Rectangle) (height : Int) : Rectangle := { r with height }

/-- `Rectangle.setColor(color)`. -/
def Rectangle.setColor (r : Rectangle) (color : String) : Rectangle := { r with color }

/-- `Rectangle.clone()`: `new Rectangle(this.width, this.height, this.color)`. -/
def Rectangle.clone (r : Rectangle) : Rectangle := ⟨r.width, r.height, r.color⟩

/-- `original.clone()` on a heap of `Circle`s: reads the object at reference
`self` and allocates the copy; the fresh reference is the old heap size. -/
def Circle.cloneAt (h : List Circle) (self : Nat) : List Circle × Nat :=
  (h ++ [Circle.clone (h.getD self default)], h.length)

/-- `setColor` on the `Circle` at reference `ref` of a heap (in-place field
mutation of that object only). -/
def Circle.setColorAt (h : List Circle) (ref : Nat) (color : String) : List Circle :=
  h.set ref ((h.getD ref default).setColor color)

/-- `original.clone()` on a heap of `Rectangle`s. -/
def Rectangle.cloneAt (h : List Rectangle) (self : Nat) : List Rectangle × Nat :=
  (h ++ [Rectangle.clone (h.getD self default)], h.length)

/-- `setColor` on the `Rectangle` at reference `ref` of a heap. -/
def Rectangle.setColorAt (h : List Rectangle) (ref : Nat) (color : String) : List Rectangle :=
  h.set ref ((h.getD ref default).setColor color)

/-- `setHeight` on the `Rectangle` at reference `ref` of a heap. -/
def Rectangle.setHeightAt (h : List Rectangle) (ref : Nat) (height : Int) : List Rectangle :=
  h.set ref ((h.getD ref default).setHeight height)

/-! ## Builder (`src/unnamed/part_001`)

`House` has four nullable `String` fields set by straight-line setters; a
`HouseBuilder` is the interface of the four build steps plus `getHouse()`;
`ConstructionDirector.constructHouse()` invokes the steps in a fixed order. -/

/-- The `House` product: fields are `null` (`none`) until set. -/
structure House where
  foundation : Option String
  struct : Option String
  roof : Option String
  interior : Option String
deriving DecidableEq

/-- `new House()`: all fields null. -/
def House.init : House := ⟨none, none, none, none⟩

/-- `House.setFoundation(foundation)`. -/
def House.setFoundation (h : House) (s : String) : House := { h with foundation := some s }

/-- `House.setStructure(structure)` (the Java field is named `structure`). -/
def House.setStructure (h : House) (s : String) : House := { h with struct := some s }

/-- `House.setRoof(roof)`. -/
def House.setRoof (h : House) (s : String) : House := { h with roof := some s }

/-- `House.setInterior(interior)`. -/
def House.setInterior (h : House) (s : String) : House := { h with interior := some s }

/-- The `HouseBuilder` interface over a builder-state type `σ`: the four build
steps and `getHouse()`. -/
structure HouseBuilder (σ : Type) where
  buildFoundation : σ → σ
  buildStructure : σ → σ
  buildRoof : σ → σ
  buildInterior : σ → σ
  getHouse : σ → House

/-- `BrickHouseBuilder`: its state is the `House` under construction
(`new House()` initially); each step sets one field. -/
def BrickHouseBuilder : HouseBuilder House where
  buildFoundation h := h.setFoundation "Concrete and Steel"
  buildStructure h := h.setStructure "Brick and Mortar"
  buildRoof h := h.setRoof "Concrete Slabs"
  buildInterior h := h.setInterior "Plastered Walls"
  getHouse h := h

/-- `WoodenHouseBuilder`. -/
def WoodenHouseBuilder : HouseBuilder House where
  buildFoundation h := h.setFoundation "Wooden Piles"
  buildStructure h := h.setStructure "Wood and Bamboo"
  buildRoof h := h.setRoof "Wooden Shingles"
  buildInterior h := h.setInterior "Wooden Panels"
  getHouse h := h

/-- `ConstructionDirector.constructHouse()`:
`builder.buildFoundation(); builder.buildStructure(); builder.buildRoof();`
`builder.buildInterior();` — straight-line, total. -/
def ConstructionDirector.constructHouse {σ : Type} (b : HouseBuilder σ) (s : σ) : σ :=
  b.buildInterior (b.buildRoof (b.buildStructure (b.buildFoundation s)))

/-- Instrumentation of a builder that also records the names of the build
steps in invocation order, used to state the call-order property. -/
def HouseBuilder.traced {σ : Type} (b : HouseBuilder σ) : HouseBuilder (σ × List String) where
  buildFoundation p := (b.buildFoundation p.1, p.2 ++ ["buildFoundation"])
  buildStructure p := (b.buildStructure p.1, p.2 ++ ["buildStructure"])
  buildRoof p := (b.buildRoof p.1, p.2 ++ ["buildRoof"])
  buildInterior p := (b.buildInterior p.1, p.2 ++ ["buildInterior"])
  getHouse p := b.getHouse p.1

/-! ## Observer (`src/docs/behavioralPattern/observer/Observer.mdx`)

`Subject` keeps an `ArrayList<Observer>`; `attach` appends, `detach` removes
the first occurrence (`List.remove(Object)`), `notifyObservers` iterates the
list calling `update(stockName, price)` on each.  Observers are modelled by
ids; an `update` call is recorded as an event. -/

/-- The `Subject`: its observer list in insertion order. -/
structure Subject where
  observers : List Nat

/-- `Subject.attach(observer)`: `observers.add(observer)` appends. -/
def Subject.attach (s : Subject) (o : Nat) : Subject :=
  ⟨s.observers ++ [o]⟩

/-- `Subject.detach(observer)`: `observers.remove(observer)` removes the first
occurrence, if any. -/
def Subject.detach (s : Subject) (o : Nat) : Subject :=
  ⟨s.observers.erase o⟩

/-- One delivered `update(stockName, price)` call. -/
structure UpdateCall where
  obs : Nat
  stockName : String
  price : Rat
deriving DecidableEq

/-- `Subject.notifyObservers(stockName, price)`: a single synchronous pass over
the observer list, calling `update` on each; the result is the list of calls
in delivery order. -/
def Subject.notifyObservers (s : Subject) (stockName : String) (price : Rat) :
    List UpdateCall :=
  s.observers.map (fun o => ⟨o, stockName, price⟩)

/-- The `StockMarket` concrete subject: a price map on top of a `Subject`. -/
structure StockMarket where
  subj : Subject
  stockPrices : List (String × Rat)

/-- `StockMarket.setPrice(stockName, price)`: `stockPrices.put(...)` then
`notifyObservers(stockName, price)`; returns the new market and the calls. -/
def StockMarket.setPrice (m : StockMarket) (stockName : String) (price : Rat) :
    StockMarket × List UpdateCall :=
  (⟨m.subj, (stockName, price) :: m.stockPrices⟩,
    m.subj.notifyObservers stockName price)

/-- `StockMarket.getPrice(stockName)`: `stockPrices.getOrDefault(stockName, 0.0)`
(the most recent `put` wins). -/
def StockMarket.getPrice (m : StockMarket) (stockName : String) : Rat :=
  ((m.stockPrices.find? (fun p => p.1 == stockName)).map Prod.snd).getD 0

/-! ## Chain of responsibility
(`src/docs/behavioralPattern/chainOfResponsability/ChainOfResponsability.mdx`)

Each concrete `Handler` resolves its own keyword, else forwards to `next` when
non-null, else prints its "unable" line.  A chain is the list of handlers from
the entry point along `next`; the empty list is a null `next`. -/

/-- The three concrete handler classes. -/
inductive HandlerKind
  | automated
  | agent
  | supervisor
deriving DecidableEq

/-- The request keyword each handler resolves. -/
def HandlerKind.keyword : HandlerKind → String
  | .automated => "basic"
  | .agent => "intermediate"
  | .supervisor => "complex"

/-- The line printed when the handler resolves its request. -/
def HandlerKind.resolveLine : HandlerKind → String
  | .automated => "AutomatedHandler: Resolving basic request."
  | .agent => "AgentHandler: Resolving intermediate request."
  | .supervisor => "SupervisorHandler: Resolving complex request."

/-- The line printed when the handler has no `next` and cannot resolve. -/
def HandlerKind.unableLine : HandlerKind → String
  | .automated => "AutomatedHandler: Unable to process the request."
  | .agent => "AgentHandler: Unable to process the request."
  | .supervisor => "SupervisorHandler: Unable to process the request."

/-- `Handler.handleRequest(request)`:
`if (request.equals(keyword)) print(resolve); else if (next != null)`
`next.handleRequest(request); else print(unable);` — output is the list of
printed lines.  An empty chain prints nothing (a null entry point is never
used by the client). -/
def Handler.handleRequest : List HandlerKind → String → List String
  | [], _ => []
  | h :: rest, req =>
    if req = h.keyword then [h.resolveLine]
    else
      match rest with
      | [] => [h.unableLine]
      | h2 :: rest2 => Handler.handleRequest (h2 :: rest2) req

/-- The chain the client builds: `automatedHandler.setNext(agentHandler);`
`agentHandler.setNext(supervisorHandler);`. -/
def clientChain : List HandlerKind := [.automated, .agent, .supervisor]

/-! ## Decorator (`src/docs/structuralPattern/decorator/WindowDecorator.ts`,
`src/unnamed/part_005`, `src/unnamed/part_003`)

`SimpleWindow.draw()` prints one line; `WindowDecorator.draw()` delegates to
the wrapped window; `BorderedWindowDecorator.draw()` is `super.draw()` (the
delegation) followed by `drawBorder()`. -/

/-- The window class hierarchy: `SimpleWindow`, the plain `WindowDecorator`,
and `BorderedWindowDecorator`, each wrapping a `Window`. -/
inductive Window
  | simple
  | decorator (w : Window)
  | bordered (w : Window)

/-- `Window.draw()` by dynamic dispatch, as the list of printed lines.
`decorator w` is `WindowDecorator.draw()`, i.e. `this.window.draw()`;
`bordered w` is `BorderedWindowDecorator.draw()`, i.e. `super.draw()` — which
is the same `this.window.draw()` — followed by the `drawBorder()` line. -/
def Window.draw : Window → List String
  | .simple => ["Drawing a simple window"]
  | .decorator w => w.draw
  | .bordered w => w.draw ++ ["Drawing a border around the window"]

/-! ## Theorems -/

/-- C1: the claim states that two `getCharacter` calls with equal arguments
return the same shared `Character` object.  The code contradicts this (and its
own surrounding prose): each call allocates `new Character(...)` and keys the
map by reference identity, so on a fresh factory two calls
`getCharacter('a', 12, "Arial")` return two distinct `Character` references
while the factory ends up holding two allocated `Character` objects for the
single requested `(value, size, font)` triple. -/
theorem flyweight_getCharacter_never_shares :
    flyweightTwice.2.1 ≠ flyweightTwice.2.2 ∧ flyweightTwice.1.heap.length = 2 := by
  decide

/-- C2 counterexample: the claim states every `MediaPlayer` operation leaves
the current state unchanged.  False: on the initial (stopped) player, `play()`
moves the state from `Stopped` to `Playing`. -/
theorem mediaPlayer_play_changes_state :
    (MediaPlayer.init.play).2.currentState ≠ MediaPlayer.init.currentState := by
  decide

/-- C2 amended: the `MediaPlayer` does carry a state machine.  `play` always
leaves the player `Playing`; `stop` always leaves it `Stopped`; `pause` moves
`Playing` to `Paused` and leaves `Paused` and `Stopped` where they are. -/
theorem mediaPlayer_transition_table (p : MediaPlayer) :
    (p.play).2.currentState = .playing
    ∧ (p.stop).2.currentState = .stopped
    ∧ (p.pause).2.currentState
        = (match p.currentState with
           | .playing => .paused
           | .paused => .paused
           | .stopped => .stopped) := by
  obtain ⟨s⟩ := p
  cases s <;> exact ⟨rfl, rfl, rfl⟩

/-- C3: `PlaylistIterator.next()` raises the `IllegalStateException` exactly
when `hasNext()` is false, which holds exactly when `position ≥ songs.length`;
otherwise it returns `songs[position]` and advances `position` by one.
(`hasNext()` and `Playlist.createIterator()` are embedded as total functions:
they have no error path.) -/
theorem playlistIterator_next_spec (it : PlaylistIterator) :
    (it.hasNext = false ↔ it.songs.length ≤ it.position)
    ∧ (it.hasNext = false → it.next = .error "No more songs in the playlist.")
    ∧ ∀ h : it.position < it.songs.length,
        it.next = .ok (it.songs.get ⟨it.position, h⟩, ⟨it.songs, it.position + 1⟩) := by
  refine ⟨?_, ?_, ?_⟩
  · simp [PlaylistIterator.hasNext]
  · intro h
    simp [PlaylistIterator.next, h]
  · intro h
    have hh : it.hasNext = true := by simp [PlaylistIterator.hasNext, h]
    simp [PlaylistIterator.next, hh]

/-- C3 witness: on `["Song A"]` with the cursor past the end, `next()` raises
the exception; with the cursor at `0` it returns `"Song A"` and advances. -/
theorem playlistIterator_next_spec_witness :
    (PlaylistIterator.mk ["Song A"] 1).next = .error "No more songs in the playlist."
    ∧ (PlaylistIterator.mk ["Song A"] 0).next = .ok ("Song A", ⟨["Song A"], 1⟩) :=
  ⟨(playlistIterator_next_spec ⟨["Song A"], 1⟩).2.1 (by decide),
   (playlistIterator_next_spec ⟨["Song A"], 0⟩).2.2 (by decide)⟩

/-- C4: from the uninitialized static state, the first `Logger.getInstance()`
call allocates the single instance (reference `0`); the second call returns
that same reference; and in general once `instance` is set, every call returns
it and leaves the static state unchanged — no call ever allocates a second
`Logger`. -/
theorem logger_getInstance_singleton :
    (Logger.getInstance LoggerState.uninitialized = (⟨some 0, 1⟩, 0))
    ∧ ((Logger.getInstance (Logger.getInstance LoggerState.uninitialized).1).2
        = (Logger.getInstance LoggerState.uninitialized).2)
    ∧ ∀ (s : LoggerState) (i : Nat), s.inst = some i → Logger.getInstance s = (s, i) := by
  refine ⟨rfl, rfl, ?_⟩
  rintro ⟨_ | j, n⟩ i h
  · simp at h
  · obtain rfl : j = i := Option.some.inj h
    rfl

/-- C4 witness: on an initialized state holding instance `5`, `getInstance()`
returns `5` and changes nothing. -/
theorem logger_getInstance_singleton_witness :
    Logger.getInstance ⟨some 5, 6⟩ = (⟨some 5, 6⟩, 5) :=
  logger_getInstance_singleton.2.2 ⟨some 5, 6⟩ 5 rfl

/-- C5: `clone()` yields a distinct object with equal field values: on any
heap, cloning the `Circle` (resp. `Rectangle`) at a valid reference returns a
reference different from the original, and the object stored at the new
reference has exactly the original's fields. -/
theorem prototype_clone_distinct_equal (hc : List Circle) (hr : List Rectangle)
    (i j : Nat) (hi : i < hc.length) (hj : j < hr.length) :
    ((Circle.cloneAt hc i).2 ≠ i
      ∧ (Circle.cloneAt hc i).1.get? (Circle.cloneAt hc i).2 = hc.get? i)
    ∧ ((Rectangle.cloneAt hr j).2 ≠ j
      ∧ (Rectangle.cloneAt hr j).1.get? (Rectangle.cloneAt hr j).2 = hr.get? j) := by
  refine ⟨⟨?_, ?_⟩, ?_, ?_⟩
  · show hc.length ≠ i
    omega
  · show (hc ++ [Circle.clone (hc.getD i default)]).get? hc.length = hc.get? i
    simp only [List.get?_eq_getElem?]
    rw [List.getElem?_concat_length, List.getD_eq_getElem hc default hi,
      List.getElem?_eq_getElem hi]
    rfl
  · show hr.length ≠ j
    omega
  · show (hr ++ [Rectangle.clone (hr.getD j default)]).get? hr.length = hr.get? j
    simp only [List.get?_eq_getElem?]
    rw [List.getElem?_concat_length, List.getD_eq_getElem hr default hj,
      List.getElem?_eq_getElem hj]
    rfl

/-- C5 witness: cloning the circle `(10, "Red")` at reference `0` of a
one-object heap gives a different reference holding equal fields. -/
theorem prototype_clone_distinct_equal_witness :
    (Circle.cloneAt [⟨10, "Red"⟩] 0).2 ≠ 0
    ∧ (Circle.cloneAt [⟨10, "Red"⟩] 0).1.get? (Circle.cloneAt [⟨10, "Red"⟩] 0).2
        = [(⟨10, "Red"⟩ : Circle)].get? 0 :=
  (prototype_clone_distinct_equal [⟨10, "Red"⟩] [⟨20, 30, "Blue"⟩] 0 0
    (by decide) (by decide)).1

/-- C10: clone independence.  After `clone()`, mutating a field of the clone
(`setColor` on the cloned `Circle`/`Rectangle`, `setHeight` on the cloned
`Rectangle`) leaves the original object unchanged, and mutating the original
leaves the clone unchanged. -/
theorem prototype_clone_independence (hc : List Circle) (hr : List Rectangle)
    (i j : Nat) (hi : i < hc.length) (hj : j < hr.length) (col : String) (ht : Int) :
    ((Circle.setColorAt (Circle.cloneAt hc i).1 (Circle.cloneAt hc i).2 col).get? i
        = hc.get? i)
    ∧ ((Rectangle.setColorAt (Rectangle.cloneAt hr j).1 (Rectangle.cloneAt hr j).2 col).get? j
        = hr.get? j)
    ∧ ((Rectangle.setHeightAt (Rectangle.cloneAt hr j).1 (Rectangle.cloneAt hr j).2 ht).get? j
        = hr.get? j)
    ∧ ((Circle.setColorAt (Circle.cloneAt hc i).1 i col).get? (Circle.cloneAt hc i).2
        = (Circle.cloneAt hc i).1.get? (Circle.cloneAt hc i).2)
    ∧ ((Rectangle.setHeightAt (Rectangle.cloneAt hr j).1 j ht).get? (Rectangle.cloneAt hr j).2
        = (Rectangle.cloneAt hr j).1.get? (Rectangle.cloneAt hr j).2) := by
  refine ⟨?_, ?_, ?_, ?_, ?_⟩
  · simp only [Circle.setColorAt, List.get?_eq_getElem?]
    rw [List.getElem?_set_ne (show (Circle.cloneAt hc i).2 ≠ i by
      show hc.length ≠ i; omega)]
    exact List.getElem?_append_left hi
  · simp only [Rectangle.setColorAt, List.get?_eq_getElem?]
    rw [List.getElem?_set_ne (show (Rectangle.cloneAt hr j).2 ≠ j by
      show hr.length ≠ j; omega)]
    exact List.getElem?_append_left hj
  · simp only [Rectangle.setHeightAt, List.get?_eq_getElem?]
    rw [List.getElem?_set_ne (show (Rectangle.cloneAt hr j).2 ≠ j by
      show hr.length ≠ j; omega)]
    exact List.getElem?_append_left hj
  · simp only [Circle.setColorAt, List.get?_eq_getElem?]
    rw [List.getElem?_set_ne (show i ≠ (Circle.cloneAt hc i).2 by
      show i ≠ hc.length; omega)]
  · simp only [Rectangle.setHeightAt, List.get?_eq_getElem?]
    rw [List.getElem?_set_ne (show j ≠ (Rectangle.cloneAt hr j).2 by
      show j ≠ hr.length; omega)]

/-- C10 witness: on the one-rectangle heap `[(20, 30, "Blue")]`, cloning at
reference `0` and then calling `setHeight(40)` on the clone leaves the
original rectangle unchanged. -/
theorem prototype_clone_independence_witness :
    (Rectangle.setHeightAt (Rectangle.cloneAt [⟨20, 30, "Blue"⟩] 0).1
        (Rectangle.cloneAt [⟨20, 30, "Blue"⟩] 0).2 40).get? 0
      = [(⟨20, 30, "Blue"⟩ : Rectangle)].get? 0 :=
  (prototype_clone_independence [⟨10, "Red"⟩] [⟨20, 30, "Blue"⟩] 0 0
    (by decide) (by decide) "Green" 40).2.2.1

/-- Helper: counting the update calls addressed to `ob` counts the occurrences
of `ob` in the underlying observer list. -/
theorem countP_map_updateCall (l : List Nat) (n : String) (p : Rat) (ob : Nat) :
    ((l.map fun o => (⟨o, n, p⟩ : UpdateCall)).countP fun c => c.obs == ob)
      = l.count ob := by
  induction l with
  | nil => rfl
  | cons a t ih => simp [List.countP_cons, List.count_cons, ih]

/-- Helper: erasing an observer first and then notifying is the same as
notifying and then erasing the first update call addressed to it. -/
theorem map_erase_updateCall (l : List Nat) (n : String) (p : Rat) (ob : Nat) :
    (l.erase ob).map (fun o => (⟨o, n, p⟩ : UpdateCall))
      = (l.map fun o => (⟨o, n, p⟩ : UpdateCall)).eraseP fun c => c.obs == ob := by
  induction l with
  | nil => rfl
  | cons a t ih =>
    by_cases h : a = ob
    · subst h
      simp [List.erase_cons, List.eraseP_cons]
    · simp [List.erase_cons, List.eraseP_cons, h, ih]

/-- C6: `ConstructionDirector.constructHouse()` invokes, on every builder, the
steps `buildFoundation`, `buildStructure`, `buildRoof`, `buildInterior` in
exactly that order (the traced instrumentation records exactly that call
sequence); it is straight-line and total (no validation, no error path); and
afterwards a `BrickHouseBuilder`'s `getHouse()` yields the house with
foundation "Concrete and Steel", structure "Brick and Mortar", roof
"Concrete Slabs" and interior "Plastered Walls". -/
theorem constructHouse_spec :
    (∀ (σ : Type) (b : HouseBuilder σ) (s : σ),
        (ConstructionDirector.constructHouse b.traced (s, [])).2
          = ["buildFoundation", "buildStructure", "buildRoof", "buildInterior"])
    ∧ BrickHouseBuilder.getHouse
          (ConstructionDirector.constructHouse BrickHouseBuilder House.init)
        = ⟨some "Concrete and Steel", some "Brick and Mortar",
           some "Concrete Slabs", some "Plastered Walls"⟩ :=
  ⟨fun _ _ _ => rfl, rfl⟩

/-- C7: `notifyObservers(stockName, price)` performs a single synchronous pass
over the observer list: it issues one `update` call per list entry, in list
order, which is attachment order (`attach` appends; `detach` removes exactly
the first occurrence); for distinct attached observers each is updated exactly
once; `setPrice` stores the price and issues exactly these calls. -/
theorem observer_notify_spec (s : Subject) (m : StockMarket) (n : String)
    (p : Rat) (o : Nat) :
    ((s.notifyObservers n p).length = s.observers.length)
    ∧ (∀ i : Nat, (s.notifyObservers n p).get? i
        = (s.observers.get? i).map fun ob => ⟨ob, n, p⟩)
    ∧ (s.observers.Nodup → ∀ ob ∈ s.observers,
        ((s.notifyObservers n p).countP fun c => c.obs == ob) = 1)
    ∧ ((s.attach o).notifyObservers n p = s.notifyObservers n p ++ [⟨o, n, p⟩])
    ∧ ((s.detach o).notifyObservers n p
        = (s.notifyObservers n p).eraseP fun c => c.obs == o)
    ∧ ((m.setPrice n p).2 = m.subj.notifyObservers n p)
    ∧ ((m.setPrice n p).1.getPrice n = p) := by
  refine ⟨?_, ?_, ?_, ?_, ?_, rfl, ?_⟩
  · simp [Subject.notifyObservers]
  · intro i
    simp [Subject.notifyObservers, List.get?_eq_getElem?]
  · intro hnd ob hob
    rw [Subject.notifyObservers, countP_map_updateCall]
    exact List.count_eq_one_of_mem hnd hob
  · simp [Subject.attach, Subject.notifyObservers]
  · rw [Subject.detach, Subject.notifyObservers, Subject.notifyObservers]
    exact map_erase_updateCall s.observers n p o
  · simp [StockMarket.setPrice, StockMarket.getPrice]

/-- C7 witness: with observers `[1, 2]` attached (no duplicates), observer `2`
receives exactly one `update("AAPL", 150)` call. -/
theorem observer_notify_spec_witness :
    ((Subject.mk [1, 2]).notifyObservers "AAPL" 150).countP (fun c => c.obs == 2) = 1 :=
  (observer_notify_spec ⟨[1, 2]⟩ ⟨⟨[]⟩, []⟩ "AAPL" 150 3).2.2.1 (by decide) 2 (by decide)

/-- C8: on the client's chain automated → agent → supervisor, every request is
processed by exactly one handler (exactly one line is printed): the first
handler whose keyword matches resolves it, and any other request traverses the
whole chain and ends with the supervisor printing that it is unable to process
the request. -/
theorem chain_handleRequest_spec (req : String) :
    Handler.handleRequest clientChain req
      = (if req = "basic" then ["AutomatedHandler: Resolving basic request."]
         else if req = "intermediate" then ["AgentHandler: Resolving intermediate request."]
         else if req = "complex" then ["SupervisorHandler: Resolving complex request."]
         else ["SupervisorHandler: Unable to process the request."])
    ∧ (Handler.handleRequest clientChain req).length = 1 := by
  have h : Handler.handleRequest clientChain req
      = (if req = "basic" then ["AutomatedHandler: Resolving basic request."]
         else if req = "intermediate" then ["AgentHandler: Resolving intermediate request."]
         else if req = "complex" then ["SupervisorHandler: Resolving complex request."]
         else ["SupervisorHandler: Unable to process the request."]) := by
    by_cases h1 : req = "basic" <;> by_cases h2 : req = "intermediate" <;>
      by_cases h3 : req = "complex" <;>
      simp [clientChain, Handler.handleRequest, HandlerKind.keyword,
        HandlerKind.resolveLine, HandlerKind.unableLine, h1, h2, h3]
  refine ⟨h, ?_⟩
  rw [h]
  split_ifs <;> rfl

/-- C9: decoration preserves and appends: for every window `w`,
`BorderedWindowDecorator(w).draw()` prints exactly `w.draw()` followed by the
single border line, the plain `WindowDecorator(w).draw()` prints exactly
`w.draw()`, and the client's decorated simple window prints the simple line
then the border line. -/
theorem decorator_draw_spec (w : Window) :
    (Window.bordered w).draw = w.draw ++ ["Drawing a border around the window"]
    ∧ (Window.decorator w).draw = w.draw
    ∧ (Window.bordered Window.simple).draw
        = ["Drawing a simple window", "Drawing a border around the window"] :=
  ⟨rfl, rfl, rfl⟩

end DesignPattern
